import Mathlib

/-!
Verification of the mvfst server-side packet codec and routing core.

This file gives a shallow embedding, in Lean 4, of the wire codec
(`quic/codec/Decode.cpp`), the packet builders
(`quic/codec/QuicPacketBuilder.cpp`) and the parts of the server worker
exercised by `quic/server/test/QuicServerTest.cpp`, and proves properties
of the embedded definitions.

Bytes are modelled as natural numbers (a wire byte is `< 256`; decoders
that only move bytes around do not depend on that bound).  A buffer or a
cursor is a `List Nat` of the not-yet-consumed bytes.  Fallible C++ code
(functions that `throw QuicTransportException` or return
`folly::Expected`) is modelled with `Except`.
-/

namespace Mvfst

instance {ε α : Type} [DecidableEq ε] [DecidableEq α] :
    DecidableEq (Except ε α) := fun x y =>
  match x, y with
  | .ok a, .ok b =>
    if h : a = b then isTrue (by rw [h])
    else isFalse (by intro hc; injection hc; contradiction)
  | .error a, .error b =>
    if h : a = b then isTrue (by rw [h])
    else isFalse (by intro hc; injection hc; contradiction)
  | .ok _, .error _ => isFalse (by intro hc; injection hc)
  | .error _, .ok _ => isFalse (by intro hc; injection hc)

/-! ## Byte-level helpers -/

/-- Big-endian byte encoding of `v % 2^(8*n)` on exactly `n` bytes
(the effect of `writeBE`/`Endian::big` on an `n`-byte slot). -/
def beBytes : Nat → Nat → List Nat
  | 0, _ => []
  | n + 1, v => beBytes n (v / 256) ++ [v % 256]

/-- Big-endian value of a byte list (how a fixed-width read interprets it). -/
def beValue (l : List Nat) : Nat :=
  l.foldl (fun a b => a * 256 + b) 0

theorem beBytes_length (n v : Nat) : (beBytes n v).length = n := by
  induction n generalizing v with
  | zero => rfl
  | succ n ih => simp [beBytes, ih]

theorem beValue_append (l₁ l₂ : List Nat) :
    beValue (l₁ ++ l₂) = l₂.foldl (fun a b => a * 256 + b) (beValue l₁) := by
  simp [beValue, List.foldl_append]

theorem beValue_snoc (l : List Nat) (x : Nat) :
    beValue (l ++ [x]) = beValue l * 256 + x := by
  simp [beValue_append, beValue]

theorem beValue_beBytes (n v : Nat) : beValue (beBytes n v) = v % 2 ^ (8 * n) := by
  induction n generalizing v with
  | zero => simp [beBytes, beValue, Nat.mod_one]
  | succ n ih =>
    have h : beValue (beBytes (n + 1) v) =
        beValue (beBytes n (v / 256)) * 256 + v % 256 := by
      rw [beBytes, beValue_snoc]
    rw [h, ih]
    have hpow : 2 ^ (8 * (n + 1)) = 256 * 2 ^ (8 * n) := by
      rw [Nat.mul_succ, pow_add]
      norm_num
      ring
    rw [hpow, Nat.mod_mul]
    ring

/-! ## Protocol constants

Constants whose defining header (`QuicConstants.h` / `Types.h`) is not part
of the source sample are modelled from the spec, as noted on each one. -/

/-- `kMaxPacketLenSize`: width reserved for the long-header packet-length
field (spec 4.5: "fixed-width varint of size kMaxPacketLenSize (always 4)"). -/
def kMaxPacketLenSize : Nat := 4

/-- `kMaxPacketNumEncodingSize`: largest packet-number encoding (spec 4.2:
lengths are 1-4 bytes). -/
def kMaxPacketNumEncodingSize : Nat := 4

/-- Modelled from the spec: `sizeof(Sample)`, the header-protection sample
size; the 16-byte sample type lives outside the source sample. -/
def sizeofSample : Nat := 16

/-- `kMaxConnectionIdSize` (spec 3: connection id length is 0-20). -/
def kMaxConnectionIdSize : Nat := 20

/-- `kRetryIntegrityTagLen` (spec 4.4: 16-byte retry integrity tag). -/
def kRetryIntegrityTagLen : Nat := 16

/-- `kDefaultAckDelayExponent` (spec 4.3: the default exponent is 3). -/
def kDefaultAckDelayExponent : Nat := 3

/-- `std::numeric_limits<std::chrono::microseconds::rep>::max()`
(spec 4.3: the microsecond representation limit, 2^63 - 1). -/
def microsecondsMax : Nat := 2 ^ 63 - 1

/-- Modelled from the spec: `kDefaultUDPSendPacketLen`, the byte budget of
the version-negotiation builder; the constant's header is outside the
source sample, the value is the IPv6-safe datagram size used by mvfst. -/
def kDefaultUDPSendPacketLen : Nat := 1252

/-- Stateless reset token length (spec 4.6: 16-byte reset token). -/
def statelessResetTokenLength : Nat := 16

/-- `kHeaderFormMask`: bit 7 of the initial byte selects the header form
(spec glossary / 4.4). -/
def kHeaderFormMask : Nat := 0x80

namespace LongHeader

/-- Long-header fixed bit (bit 6), modelled from the spec (4.4). -/
def kFixedBitMask : Nat := 0x40

/-- Long-header packet-type bits (spec 4.4: type bits of the initial byte). -/
def kPacketTypeMask : Nat := 0x30

/-- Shift of the packet-type bits, as used by `parseLongHeaderType`. -/
def kTypeShift : Nat := 4

/-- Long-header reserved bits (the two bits between type and pn length). -/
def kReservedBitsMask : Nat := 0x0C

/-- Low two bits of the initial byte give the packet-number length - 1. -/
def kPacketNumLenMask : Nat := 0x03

end LongHeader

namespace ShortHeader

/-- Short-header fixed bit: spec 4.4 "fixed bit (bit 6 of initial byte)". -/
def kFixedBitMask : Nat := 0x40

/-- Modelled from the spec: short-header reserved bits, spec 4.4 "the
reserved bits (4-5)"; the mask constant lives outside the source sample. -/
def kReservedBitsMask : Nat := 0x30

/-- Key-phase bit: spec 4.4 "Key phase is bit 2". -/
def kKeyPhaseMask : Nat := 0x04

/-- Low two bits of the initial byte give the packet-number length - 1. -/
def kPacketNumLenMask : Nat := 0x03

end ShortHeader

/-! ## QUIC variable-length integers

Modelled from the spec (4.1): `QuicInteger.cpp` is not in the source
sample.  The two most-significant bits of the first byte encode the length
(1, 2, 4 or 8 bytes); the remaining bits are the big-endian value; the
encoder emits the canonical shortest form unless a minimum width is
requested (as the in-place builder does for the packet-length slot). -/

/-- Canonical (shortest) encoded size of a varint value. -/
def quicIntegerSize (v : Nat) : Nat :=
  if v < 2 ^ 6 then 1
  else if v < 2 ^ 14 then 2
  else if v < 2 ^ 30 then 4
  else 8

/-- Encode `v` as a varint of exactly `sz` bytes (the prefix bits 00/01/10/11
are added to the top of the 1/2/4/8-byte big-endian value). -/
def encodeQuicIntegerOfSize (sz v : Nat) : List Nat :=
  match sz with
  | 1 => beBytes 1 v
  | 2 => beBytes 2 (2 ^ 14 + v)
  | 4 => beBytes 4 (2 ^ 31 + v)
  | 8 => beBytes 8 (3 * 2 ^ 62 + v)
  | _ => []

/-- Shortest-form varint encoding (`QuicInteger::encode` with no width). -/
def encodeQuicInteger (v : Nat) : List Nat :=
  encodeQuicIntegerOfSize (quicIntegerSize v) v

/-- Varint encoding with a minimum width (`QuicInteger::encode(op, size)`). -/
def encodeQuicIntegerAtLeast (minSize v : Nat) : List Nat :=
  encodeQuicIntegerOfSize (max (quicIntegerSize v) minSize) v

/-- `decodeQuicInteger`: returns `(value, consumedBytes, rest)`, or `none`
when the buffer is shorter than the length indicated by the first byte. -/
def decodeQuicInteger (bytes : List Nat) : Option (Nat × Nat × List Nat) :=
  match bytes with
  | [] => none
  | b :: rest =>
    let len := 2 ^ (b / 64)
    if rest.length + 1 < len then none
    else some (beValue (b % 64 :: rest.take (len - 1)), len, rest.drop (len - 1))

theorem quicIntegerSize_cases (v : Nat) :
    quicIntegerSize v = 1 ∨ quicIntegerSize v = 2 ∨ quicIntegerSize v = 4 ∨
      quicIntegerSize v = 8 := by
  unfold quicIntegerSize
  split
  · exact Or.inl rfl
  split
  · exact Or.inr (Or.inl rfl)
  split
  · exact Or.inr (Or.inr (Or.inl rfl))
  · exact Or.inr (Or.inr (Or.inr rfl))

theorem encodeQuicIntegerOfSize_length (sz v : Nat)
    (h : sz = 1 ∨ sz = 2 ∨ sz = 4 ∨ sz = 8) :
    (encodeQuicIntegerOfSize sz v).length = sz := by
  rcases h with h | h | h | h <;> subst h <;>
    simp [encodeQuicIntegerOfSize, beBytes_length]

theorem encodeQuicInteger_length (v : Nat) :
    (encodeQuicInteger v).length = quicIntegerSize v :=
  encodeQuicIntegerOfSize_length _ v (quicIntegerSize_cases v)

/-! ## Error codes, frame types, headers (data model of spec 3 / 7) -/

inductive TransportErrorCode where
  | FRAME_ENCODING_ERROR
  | PROTOCOL_VIOLATION
  | INTERNAL_ERROR
  deriving DecidableEq, Repr

/-- Frame-type tags carried by codec errors and the tagged frame union. -/
inductive FrameType where
  | PADDING | PING | ACK | ACK_ECN | RST_STREAM | STOP_SENDING
  | CRYPTO_FRAME | NEW_TOKEN
  | STREAM | STREAM_FIN | STREAM_LEN | STREAM_LEN_FIN
  | STREAM_OFF | STREAM_OFF_FIN | STREAM_OFF_LEN | STREAM_OFF_LEN_FIN
  | MAX_DATA | MAX_STREAM_DATA | MAX_STREAMS_BIDI | MAX_STREAMS_UNI
  | DATA_BLOCKED | STREAM_DATA_BLOCKED | STREAMS_BLOCKED_BIDI
  | STREAMS_BLOCKED_UNI | NEW_CONNECTION_ID | RETIRE_CONNECTION_ID
  | PATH_CHALLENGE | PATH_RESPONSE | CONNECTION_CLOSE
  | CONNECTION_CLOSE_APP_ERR | MIN_STREAM_DATA | EXPIRED_STREAM_DATA
  | HANDSHAKE_DONE
  deriving DecidableEq, Repr

/-- A thrown `QuicTransportException`: transport error code plus the
optional triggering frame type. -/
structure QuicError where
  code : TransportErrorCode
  frameType : Option FrameType
  deriving DecidableEq, Repr

inductive HeaderForm where
  | Long
  | Short
  deriving DecidableEq, Repr

inductive ProtectionType where
  | KeyPhaseZero
  | KeyPhaseOne
  deriving DecidableEq, Repr

/-- `LongHeader::Types`; the numeric value is the long-header type bits. -/
inductive LongHeaderType where
  | Initial
  | ZeroRtt
  | Handshake
  | Retry
  deriving DecidableEq, Repr

def LongHeaderType.toNat : LongHeaderType → Nat
  | .Initial => 0
  | .ZeroRtt => 1
  | .Handshake => 2
  | .Retry => 3

structure LongHeaderData where
  headerType : LongHeaderType
  version : Nat
  srcConnId : List Nat
  dstConnId : List Nat
  packetSequenceNum : Nat
  token : List Nat
  originalDstConnId : Option (List Nat)
  deriving DecidableEq, Repr

structure ShortHeaderData where
  protectionType : ProtectionType
  connectionId : List Nat
  /-- Absent on parsed short headers (the pn is decoded later). -/
  packetSequenceNum : Option Nat
  deriving DecidableEq, Repr

inductive PacketHeader where
  | long (h : LongHeaderData)
  | short (h : ShortHeaderData)
  deriving DecidableEq, Repr

def PacketHeader.getHeaderForm : PacketHeader → HeaderForm
  | .long _ => .Long
  | .short _ => .Short

/-- `getHeaderForm` on a raw initial byte (bit 7 selects the form). -/
def getHeaderForm (initialByte : Nat) : HeaderForm :=
  if initialByte &&& kHeaderFormMask ≠ 0 then .Long else .Short

structure CodecParameters where
  peerAckDelayExponent : Nat
  deriving DecidableEq, Repr

/-! ## Frames (the tagged union of spec 3) -/

/-- An inclusive acked range `[startPacket, endPacket]`. -/
structure AckBlock where
  startPacket : Nat
  endPacket : Nat
  deriving DecidableEq, Repr

structure ReadAckFrame where
  largestAcked : Nat
  /-- Ack delay in microseconds, after scaling by the exponent. -/
  ackDelay : Nat
  ackBlocks : List AckBlock
  deriving DecidableEq, Repr

structure ReadStreamFrame where
  streamId : Nat
  offset : Nat
  data : List Nat
  fin : Bool
  deriving DecidableEq, Repr

structure NewConnectionIdFrameData where
  sequenceNumber : Nat
  retirePriorTo : Nat
  connectionId : List Nat
  token : List Nat
  deriving DecidableEq, Repr

structure ConnectionCloseFrameData where
  errorCode : Nat
  isApplicationClose : Bool
  reasonPhrase : List Nat
  /-- Raw value of the triggering frame type (the C++ code stores the
  unchecked enum cast of the decoded varint). -/
  closingFrameType : Nat
  deriving DecidableEq, Repr

inductive QuicFrame where
  | padding
  | ping
  | ack (f : ReadAckFrame)
  | rstStream (streamId errorCode offset : Nat)
  | stopSending (streamId errorCode : Nat)
  | crypto (offset : Nat) (data : List Nat)
  | newToken (token : List Nat)
  | stream (f : ReadStreamFrame)
  | maxData (maximumData : Nat)
  | maxStreamData (streamId offset : Nat)
  | maxStreams (streamCount : Nat) (isBidirectional : Bool)
  | dataBlocked (dataLimit : Nat)
  | streamDataBlocked (streamId dataLimit : Nat)
  | streamsBlocked (streamId : Nat) (isBidirectional : Bool)
  | newConnectionId (f : NewConnectionIdFrameData)
  | retireConnectionId (sequenceNum : Nat)
  | pathChallenge (pathData : Nat)
  | pathResponse (pathData : Nat)
  | connectionClose (f : ConnectionCloseFrameData)
  | minStreamData (streamId maximumData minimumStreamOffset : Nat)
  | expiredStreamData (streamId minimumStreamOffset : Nat)
  | handshakeDone
  deriving DecidableEq, Repr

/-! ## Frame decoders (`Decode.cpp`)

Each decoder takes the unconsumed bytes and returns the decoded frame with
the remaining bytes, or the `QuicTransportException` it throws. -/

/-- The error every throw site of the ACK decoding path uses. -/
def ackError : QuicError := ⟨.FRAME_ENCODING_ERROR, some .ACK⟩

/-- Modelled from the spec: `kMaxReasonPhraseLength` (spec 4.3 bounds the
close reason phrase); the constant's header is outside the source sample. -/
def kMaxReasonPhraseLength : Nat := 1024

/-- `nextAckedPacketGap`: the end of the next ack block is the previous
block start minus `gap + 2`; underflow is a frame-encoding error. -/
def nextAckedPacketGap (packetNum gap : Nat) : Except QuicError Nat :=
  let adjustedGap := gap + 2
  if packetNum < adjustedGap then .error ackError
  else .ok (packetNum - adjustedGap)

/-- `nextAckedPacketLen`: the start of a block is its end minus the block
length (0 is allowed); underflow is a frame-encoding error. -/
def nextAckedPacketLen (packetNum ackBlockLen : Nat) : Except QuicError Nat :=
  if packetNum < ackBlockLen then .error ackError
  else .ok (packetNum - ackBlockLen)

/-- `memcmp(data, data + 1, size - 1) == 0`: every byte equals its
successor, i.e. all bytes of the run are equal. -/
def consecutiveBytesEqual : List Nat → Bool
  | [] => true
  | [_] => true
  | a :: b :: rest => a == b && consecutiveBytesEqual (b :: rest)

/-- `decodePaddingFrame`: consumes the whole remaining run when it is all
padding bytes, otherwise consumes nothing; always yields one frame. -/
def decodePaddingFrame (cursor : List Nat) : QuicFrame × List Nat :=
  match cursor with
  | [] => (.padding, [])
  | firstByte :: rest =>
    if firstByte ≠ 0 then (.padding, firstByte :: rest)
    else if consecutiveBytesEqual (firstByte :: rest) then (.padding, [])
    else (.padding, firstByte :: rest)

/-- The additional-ack-blocks loop of `decodeAckFrame`: reads `gap` and
`blockLen` pairs and appends `[start, end]` blocks. -/
def decodeAckBlocksLoop :
    Nat → List Nat → Nat → List AckBlock →
      Except QuicError (List AckBlock × List Nat)
  | 0, cursor, _, blocks => .ok (blocks, cursor)
  | numBlocks + 1, cursor, currentPacketNum, blocks =>
    match decodeQuicInteger cursor with
    | none => .error ackError
    | some (currentGap, _, cursor₁) =>
      match decodeQuicInteger cursor₁ with
      | none => .error ackError
      | some (blockLen, _, cursor₂) =>
        match nextAckedPacketGap currentPacketNum currentGap with
        | .error e => .error e
        | .ok nextEndPacket =>
          match nextAckedPacketLen nextEndPacket blockLen with
          | .error e => .error e
          | .ok nextStart =>
            decodeAckBlocksLoop numBlocks cursor₂ nextStart
              (blocks ++ [⟨nextStart, nextEndPacket⟩])

/-- `decodeAckFrame`. -/
def decodeAckFrame (cursor : List Nat) (header : PacketHeader)
    (params : CodecParameters) : Except QuicError (ReadAckFrame × List Nat) :=
  match decodeQuicInteger cursor with
  | none => .error ackError
  | some (largestAcked, _, c₁) =>
    match decodeQuicInteger c₁ with
    | none => .error ackError
    | some (ackDelay, _, c₂) =>
      match decodeQuicInteger c₂ with
      | none => .error ackError
      | some (additionalAckBlocks, _, c₃) =>
        match decodeQuicInteger c₃ with
        | none => .error ackError
        | some (firstAckBlockLen, _, c₄) =>
          let ackDelayExponentToUse :=
            if header.getHeaderForm = .Long then kDefaultAckDelayExponent
            else params.peerAckDelayExponent
          let delayOverflowMask :=
            (2 ^ 64 - 1) * 2 ^ (64 - ackDelayExponentToUse) % 2 ^ 64
          if ackDelay &&& delayOverflowMask ≠ 0 then .error ackError
          else
            let adjustedAckDelay := ackDelay * 2 ^ ackDelayExponentToUse
            if adjustedAckDelay > microsecondsMax then .error ackError
            else
              match nextAckedPacketLen largestAcked firstAckBlockLen with
              | .error e => .error e
              | .ok currentPacketNum =>
                match decodeAckBlocksLoop additionalAckBlocks c₄
                    currentPacketNum [⟨currentPacketNum, largestAcked⟩] with
                | .error e => .error e
                | .ok (blocks, c₅) =>
                  .ok (⟨largestAcked, adjustedAckDelay, blocks⟩, c₅)

/-- `decodeAckFrameWithECN`: an ACK frame followed by the three ECN
counts, which are validated and dropped. -/
def decodeAckFrameWithECN (cursor : List Nat) (header : PacketHeader)
    (params : CodecParameters) : Except QuicError (ReadAckFrame × List Nat) :=
  match decodeAckFrame cursor header params with
  | .error e => .error e
  | .ok (readAckFrame, c₁) =>
    match decodeQuicInteger c₁ with
    | none => .error ⟨.FRAME_ENCODING_ERROR, some .ACK_ECN⟩
    | some (_, _, c₂) =>
      match decodeQuicInteger c₂ with
      | none => .error ⟨.FRAME_ENCODING_ERROR, some .ACK_ECN⟩
      | some (_, _, c₃) =>
        match decodeQuicInteger c₃ with
        | none => .error ⟨.FRAME_ENCODING_ERROR, some .ACK_ECN⟩
        | some (_, _, c₄) => .ok (readAckFrame, c₄)

def decodeRstStreamFrame (cursor : List Nat) :
    Except QuicError (QuicFrame × List Nat) :=
  match decodeQuicInteger cursor with
  | none => .error ⟨.FRAME_ENCODING_ERROR, some .RST_STREAM⟩
  | some (streamId, _, c₁) =>
    match decodeQuicInteger c₁ with
    | none => .error ⟨.FRAME_ENCODING_ERROR, some .RST_STREAM⟩
    | some (errorCode, _, c₂) =>
      match decodeQuicInteger c₂ with
      | none => .error ⟨.FRAME_ENCODING_ERROR, some .RST_STREAM⟩
      | some (offset, _, c₃) => .ok (.rstStream streamId errorCode offset, c₃)

def decodeStopSendingFrame (cursor : List Nat) :
    Except QuicError (QuicFrame × List Nat) :=
  match decodeQuicInteger cursor with
  | none => .error ⟨.FRAME_ENCODING_ERROR, some .STOP_SENDING⟩
  | some (streamId, _, c₁) =>
    match decodeQuicInteger c₁ with
    | none => .error ⟨.FRAME_ENCODING_ERROR, some .STOP_SENDING⟩
    | some (errorCode, _, c₂) => .ok (.stopSending streamId errorCode, c₂)

def decodeCryptoFrame (cursor : List Nat) :
    Except QuicError (QuicFrame × List Nat) :=
  match decodeQuicInteger cursor with
  | none => .error ⟨.FRAME_ENCODING_ERROR, some .CRYPTO_FRAME⟩
  | some (offset, _, c₁) =>
    match decodeQuicInteger c₁ with
    | none => .error ⟨.FRAME_ENCODING_ERROR, some .CRYPTO_FRAME⟩
    | some (dataLength, _, c₂) =>
      if c₂.length < dataLength then
        .error ⟨.FRAME_ENCODING_ERROR, some .CRYPTO_FRAME⟩
      else .ok (.crypto offset (c₂.take dataLength), c₂.drop dataLength)

def decodeNewTokenFrame (cursor : List Nat) :
    Except QuicError (QuicFrame × List Nat) :=
  match decodeQuicInteger cursor with
  | none => .error ⟨.FRAME_ENCODING_ERROR, some .NEW_TOKEN⟩
  | some (tokenLength, _, c₁) =>
    if c₁.length < tokenLength then
      .error ⟨.FRAME_ENCODING_ERROR, some .NEW_TOKEN⟩
    else .ok (.newToken (c₁.take tokenLength), c₁.drop tokenLength)

/-- `decodeStreamFrame`; `frameTypeField` is the raw stream type byte,
whose low bits flag FIN (0x1), a length field (0x2) and an offset (0x4). -/
def decodeStreamFrame (queue : List Nat) (frameTypeField : Nat) :
    Except QuicError (QuicFrame × List Nat) :=
  match decodeQuicInteger queue with
  | none => .error ⟨.FRAME_ENCODING_ERROR, some .STREAM⟩
  | some (streamId, _, c₁) =>
    let offsetStep : Except QuicError (Nat × List Nat) :=
      if frameTypeField &&& 0x04 ≠ 0 then
        match decodeQuicInteger c₁ with
        | none => .error ⟨.FRAME_ENCODING_ERROR, some .STREAM⟩
        | some (offset, _, c₂) => .ok (offset, c₂)
      else .ok (0, c₁)
    match offsetStep with
    | .error e => .error e
    | .ok (offset, c₂) =>
      let fin := frameTypeField &&& 0x01 ≠ 0
      if frameTypeField &&& 0x02 ≠ 0 then
        match decodeQuicInteger c₂ with
        | none => .error ⟨.FRAME_ENCODING_ERROR, some .STREAM⟩
        | some (dataLength, _, c₃) =>
          if c₃.length < dataLength then
            .error ⟨.FRAME_ENCODING_ERROR, some .STREAM⟩
          else
            .ok (.stream ⟨streamId, offset, c₃.take dataLength, fin⟩,
              c₃.drop dataLength)
      else .ok (.stream ⟨streamId, offset, c₂, fin⟩, [])

def decodeMaxDataFrame (cursor : List Nat) :
    Except QuicError (QuicFrame × List Nat) :=
  match decodeQuicInteger cursor with
  | none => .error ⟨.FRAME_ENCODING_ERROR, some .MAX_DATA⟩
  | some (maximumData, _, c₁) => .ok (.maxData maximumData, c₁)

def decodeMaxStreamDataFrame (cursor : List Nat) :
    Except QuicError (QuicFrame × List Nat) :=
  match decodeQuicInteger cursor with
  | none => .error ⟨.FRAME_ENCODING_ERROR, some .MAX_STREAM_DATA⟩
  | some (streamId, _, c₁) =>
    match decodeQuicInteger c₁ with
    | none => .error ⟨.FRAME_ENCODING_ERROR, some .MAX_STREAM_DATA⟩
    | some (offset, _, c₂) => .ok (.maxStreamData streamId offset, c₂)

def decodeBiDiMaxStreamsFrame (cursor : List Nat) :
    Except QuicError (QuicFrame × List Nat) :=
  match decodeQuicInteger cursor with
  | none => .error ⟨.FRAME_ENCODING_ERROR, some .MAX_STREAMS_BIDI⟩
  | some (streamCount, _, c₁) => .ok (.maxStreams streamCount true, c₁)

def decodeUniMaxStreamsFrame (cursor : List Nat) :
    Except QuicError (QuicFrame × List Nat) :=
  match decodeQuicInteger cursor with
  | none => .error ⟨.FRAME_ENCODING_ERROR, some .MAX_STREAMS_UNI⟩
  | some (streamCount, _, c₁) => .ok (.maxStreams streamCount false, c₁)

def decodeDataBlockedFrame (cursor : List Nat) :
    Except QuicError (QuicFrame × List Nat) :=
  match decodeQuicInteger cursor with
  | none => .error ⟨.FRAME_ENCODING_ERROR, some .DATA_BLOCKED⟩
  | some (dataLimit, _, c₁) => .ok (.dataBlocked dataLimit, c₁)

def decodeStreamDataBlockedFrame (cursor : List Nat) :
    Except QuicError (QuicFrame × List Nat) :=
  match decodeQuicInteger cursor with
  | none => .error ⟨.FRAME_ENCODING_ERROR, some .STREAM_DATA_BLOCKED⟩
  | some (streamId, _, c₁) =>
    match decodeQuicInteger c₁ with
    | none => .error ⟨.FRAME_ENCODING_ERROR, some .STREAM_DATA_BLOCKED⟩
    | some (dataLimit, _, c₂) => .ok (.streamDataBlocked streamId dataLimit, c₂)

def decodeBiDiStreamsBlockedFrame (cursor : List Nat) :
    Except QuicError (QuicFrame × List Nat) :=
  match decodeQuicInteger cursor with
  | none => .error ⟨.FRAME_ENCODING_ERROR, some .STREAMS_BLOCKED_BIDI⟩
  | some (streamId, _, c₁) => .ok (.streamsBlocked streamId true, c₁)

def decodeUniStreamsBlockedFrame (cursor : List Nat) :
    Except QuicError (QuicFrame × List Nat) :=
  match decodeQuicInteger cursor with
  | none => .error ⟨.FRAME_ENCODING_ERROR, some .STREAMS_BLOCKED_UNI⟩
  | some (streamId, _, c₁) => .ok (.streamsBlocked streamId false, c₁)

def decodeNewConnectionIdFrame (cursor : List Nat) :
    Except QuicError (QuicFrame × List Nat) :=
  match decodeQuicInteger cursor with
  | none => .error ⟨.FRAME_ENCODING_ERROR, some .NEW_CONNECTION_ID⟩
  | some (sequenceNumber, _, c₁) =>
    match decodeQuicInteger c₁ with
    | none => .error ⟨.FRAME_ENCODING_ERROR, some .NEW_CONNECTION_ID⟩
    | some (retirePriorTo, _, c₂) =>
      match c₂ with
      | [] => .error ⟨.FRAME_ENCODING_ERROR, some .NEW_CONNECTION_ID⟩
      | connIdLen :: c₃ =>
        if c₃.length < connIdLen then
          .error ⟨.FRAME_ENCODING_ERROR, some .NEW_CONNECTION_ID⟩
        else if connIdLen > kMaxConnectionIdSize then
          .error ⟨.FRAME_ENCODING_ERROR, some .NEW_CONNECTION_ID⟩
        else
          let c₄ := c₃.drop connIdLen
          -- cursor.pull throws when fewer than 16 token bytes remain
          if c₄.length < statelessResetTokenLength then
            .error ⟨.FRAME_ENCODING_ERROR, some .NEW_CONNECTION_ID⟩
          else
            .ok (.newConnectionId
              ⟨sequenceNumber, retirePriorTo, c₃.take connIdLen,
                c₄.take statelessResetTokenLength⟩,
              c₄.drop statelessResetTokenLength)

def decodeRetireConnectionIdFrame (cursor : List Nat) :
    Except QuicError (QuicFrame × List Nat) :=
  match decodeQuicInteger cursor with
  | none => .error ⟨.FRAME_ENCODING_ERROR, some .RETIRE_CONNECTION_ID⟩
  | some (sequenceNum, _, c₁) => .ok (.retireConnectionId sequenceNum, c₁)

def decodePathChallengeFrame (cursor : List Nat) :
    Except QuicError (QuicFrame × List Nat) :=
  if cursor.length < 8 then
    .error ⟨.FRAME_ENCODING_ERROR, some .PATH_CHALLENGE⟩
  else .ok (.pathChallenge (beValue (cursor.take 8)), cursor.drop 8)

def decodePathResponseFrame (cursor : List Nat) :
    Except QuicError (QuicFrame × List Nat) :=
  if cursor.length < 8 then
    .error ⟨.FRAME_ENCODING_ERROR, some .PATH_RESPONSE⟩
  else .ok (.pathResponse (beValue (cursor.take 8)), cursor.drop 8)

def decodeConnectionCloseFrame (cursor : List Nat) :
    Except QuicError (QuicFrame × List Nat) :=
  match decodeQuicInteger cursor with
  | none => .error ⟨.FRAME_ENCODING_ERROR, some .CONNECTION_CLOSE⟩
  | some (errorCode, _, c₁) =>
    match decodeQuicInteger c₁ with
    | none => .error ⟨.FRAME_ENCODING_ERROR, some .CONNECTION_CLOSE⟩
    | some (frameTypeField, consumed, c₂) =>
      -- the triggering frame type must be encoded in a single byte
      if consumed ≠ 1 then
        .error ⟨.FRAME_ENCODING_ERROR, some .CONNECTION_CLOSE⟩
      else
        match decodeQuicInteger c₂ with
        | none => .error ⟨.FRAME_ENCODING_ERROR, some .CONNECTION_CLOSE⟩
        | some (reasonPhraseLength, _, c₃) =>
          if reasonPhraseLength > kMaxReasonPhraseLength then
            .error ⟨.FRAME_ENCODING_ERROR, some .CONNECTION_CLOSE⟩
          -- readFixedString throws when the buffer is too short
          else if c₃.length < reasonPhraseLength then
            .error ⟨.FRAME_ENCODING_ERROR, some .CONNECTION_CLOSE⟩
          else
            .ok (.connectionClose
              ⟨errorCode, false, c₃.take reasonPhraseLength, frameTypeField⟩,
              c₃.drop reasonPhraseLength)

def decodeApplicationClose (cursor : List Nat) :
    Except QuicError (QuicFrame × List Nat) :=
  match decodeQuicInteger cursor with
  | none => .error ⟨.FRAME_ENCODING_ERROR, some .CONNECTION_CLOSE_APP_ERR⟩
  | some (errorCode, _, c₁) =>
    match decodeQuicInteger c₁ with
    | none => .error ⟨.FRAME_ENCODING_ERROR, some .CONNECTION_CLOSE_APP_ERR⟩
    | some (reasonPhraseLength, _, c₂) =>
      if reasonPhraseLength > kMaxReasonPhraseLength then
        .error ⟨.FRAME_ENCODING_ERROR, some .CONNECTION_CLOSE_APP_ERR⟩
      else if c₂.length < reasonPhraseLength then
        .error ⟨.FRAME_ENCODING_ERROR, some .CONNECTION_CLOSE_APP_ERR⟩
      else
        .ok (.connectionClose
          ⟨errorCode, true, c₂.take reasonPhraseLength, 0⟩,
          c₂.drop reasonPhraseLength)

def decodeMinStreamDataFrame (cursor : List Nat) :
    Except QuicError (QuicFrame × List Nat) :=
  match decodeQuicInteger cursor with
  | none => .error ⟨.FRAME_ENCODING_ERROR, some .MIN_STREAM_DATA⟩
  | some (streamId, _, c₁) =>
    match decodeQuicInteger c₁ with
    | none => .error ⟨.FRAME_ENCODING_ERROR, some .MIN_STREAM_DATA⟩
    | some (maximumData, _, c₂) =>
      match decodeQuicInteger c₂ with
      | none => .error ⟨.FRAME_ENCODING_ERROR, some .MIN_STREAM_DATA⟩
      | some (minimumStreamOffset, _, c₃) =>
        .ok (.minStreamData streamId maximumData minimumStreamOffset, c₃)

def decodeExpiredStreamDataFrame (cursor : List Nat) :
    Except QuicError (QuicFrame × List Nat) :=
  match decodeQuicInteger cursor with
  | none => .error ⟨.FRAME_ENCODING_ERROR, some .EXPIRED_STREAM_DATA⟩
  | some (streamId, _, c₁) =>
    match decodeQuicInteger c₁ with
    | none => .error ⟨.FRAME_ENCODING_ERROR, some .EXPIRED_STREAM_DATA⟩
    | some (minimumStreamOffset, _, c₂) =>
      .ok (.expiredStreamData streamId minimumStreamOffset, c₂)

/-! ## `parseFrame` -/

/-- Modelled from the spec: the `sizeof(FrameType)` guard at the head of
`parseFrame`; the enum's underlying width is outside the source sample and
spec 4.3 reads a varint frame type, whose minimum width is one byte. -/
def sizeofFrameType : Nat := 1

/-- The `static_cast<FrameType>` of a decoded frame-type value, for the
tag carried by `parseFrame` errors (`none` for values outside the enum). -/
def frameTypeOfNat (n : Nat) : Option FrameType :=
  match n with
  | 0x00 => some .PADDING
  | 0x01 => some .PING
  | 0x02 => some .ACK
  | 0x03 => some .ACK_ECN
  | 0x04 => some .RST_STREAM
  | 0x05 => some .STOP_SENDING
  | 0x06 => some .CRYPTO_FRAME
  | 0x07 => some .NEW_TOKEN
  | 0x08 => some .STREAM
  | 0x09 => some .STREAM_FIN
  | 0x0a => some .STREAM_LEN
  | 0x0b => some .STREAM_LEN_FIN
  | 0x0c => some .STREAM_OFF
  | 0x0d => some .STREAM_OFF_FIN
  | 0x0e => some .STREAM_OFF_LEN
  | 0x0f => some .STREAM_OFF_LEN_FIN
  | 0x10 => some .MAX_DATA
  | 0x11 => some .MAX_STREAM_DATA
  | 0x12 => some .MAX_STREAMS_BIDI
  | 0x13 => some .MAX_STREAMS_UNI
  | 0x14 => some .DATA_BLOCKED
  | 0x15 => some .STREAM_DATA_BLOCKED
  | 0x16 => some .STREAMS_BLOCKED_BIDI
  | 0x17 => some .STREAMS_BLOCKED_UNI
  | 0x18 => some .NEW_CONNECTION_ID
  | 0x19 => some .RETIRE_CONNECTION_ID
  | 0x1a => some .PATH_CHALLENGE
  | 0x1b => some .PATH_RESPONSE
  | 0x1c => some .CONNECTION_CLOSE
  | 0x1d => some .CONNECTION_CLOSE_APP_ERR
  | 0x1e => some .HANDSHAKE_DONE
  | 0xfe => some .MIN_STREAM_DATA
  | 0xff => some .EXPIRED_STREAM_DATA
  | _ => none

/-- The catch block of `parseFrame`: any decoder failure is rethrown as a
frame-encoding error tagged with the dispatched frame type. -/
def wrapFrameError (tag : Option FrameType)
    (r : Except QuicError (QuicFrame × List Nat)) :
    Except QuicError (QuicFrame × List Nat) :=
  match r with
  | .error _ => .error ⟨.FRAME_ENCODING_ERROR, tag⟩
  | .ok x => .ok x

/-- `parseFrame`: read a varint frame type, trim it off the queue,
dispatch to the per-type decoder, and return the frame together with the
remaining queue bytes. -/
def parseFrame (queue : List Nat) (header : PacketHeader)
    (params : CodecParameters) : Except QuicError (QuicFrame × List Nat) :=
  if queue.length < sizeofFrameType then
    .error ⟨.FRAME_ENCODING_ERROR, none⟩
  else
    match decodeQuicInteger queue with
    | none => .error ⟨.FRAME_ENCODING_ERROR, none⟩
    | some (initialByte, _, queue₁) =>
      let tag := frameTypeOfNat initialByte
      match initialByte with
      | 0x00 =>
        let (_, rest) := decodePaddingFrame queue₁
        .ok (.padding, rest)
      | 0x01 => .ok (.ping, queue₁)
      | 0x02 =>
        wrapFrameError tag
          (match decodeAckFrame queue₁ header params with
            | .error e => .error e
            | .ok (f, rest) => .ok (.ack f, rest))
      | 0x03 =>
        wrapFrameError tag
          (match decodeAckFrameWithECN queue₁ header params with
            | .error e => .error e
            | .ok (f, rest) => .ok (.ack f, rest))
      | 0x04 => wrapFrameError tag (decodeRstStreamFrame queue₁)
      | 0x05 => wrapFrameError tag (decodeStopSendingFrame queue₁)
      | 0x06 => wrapFrameError tag (decodeCryptoFrame queue₁)
      | 0x07 => wrapFrameError tag (decodeNewTokenFrame queue₁)
      | 0x08 | 0x09 | 0x0a | 0x0b | 0x0c | 0x0d | 0x0e | 0x0f =>
        wrapFrameError tag (decodeStreamFrame queue₁ initialByte)
      | 0x10 => wrapFrameError tag (decodeMaxDataFrame queue₁)
      | 0x11 => wrapFrameError tag (decodeMaxStreamDataFrame queue₁)
      | 0x12 => wrapFrameError tag (decodeBiDiMaxStreamsFrame queue₁)
      | 0x13 => wrapFrameError tag (decodeUniMaxStreamsFrame queue₁)
      | 0x14 => wrapFrameError tag (decodeDataBlockedFrame queue₁)
      | 0x15 => wrapFrameError tag (decodeStreamDataBlockedFrame queue₁)
      | 0x16 => wrapFrameError tag (decodeBiDiStreamsBlockedFrame queue₁)
      | 0x17 => wrapFrameError tag (decodeUniStreamsBlockedFrame queue₁)
      | 0x18 => wrapFrameError tag (decodeNewConnectionIdFrame queue₁)
      | 0x19 => wrapFrameError tag (decodeRetireConnectionIdFrame queue₁)
      | 0x1a => wrapFrameError tag (decodePathChallengeFrame queue₁)
      | 0x1b => wrapFrameError tag (decodePathResponseFrame queue₁)
      | 0x1c => wrapFrameError tag (decodeConnectionCloseFrame queue₁)
      | 0x1d => wrapFrameError tag (decodeApplicationClose queue₁)
      | 0x1e => .ok (.handshakeDone, queue₁)
      | 0xfe => wrapFrameError tag (decodeMinStreamDataFrame queue₁)
      | 0xff => wrapFrameError tag (decodeExpiredStreamDataFrame queue₁)
      | _ => .error ⟨.FRAME_ENCODING_ERROR, tag⟩

/-! ## Short-header parsing (`Decode.cpp`) -/

/-- `parseShortHeaderInvariants`: the externally-supplied destination
connection id length is validated and that many bytes are read. -/
def parseShortHeaderInvariants (initialByte : Nat) (cursor : List Nat)
    (dstConnIdSize : Nat) : Except TransportErrorCode (List Nat × List Nat) :=
  if getHeaderForm initialByte ≠ .Short then .error .FRAME_ENCODING_ERROR
  else if dstConnIdSize > kMaxConnectionIdSize then .error .PROTOCOL_VIOLATION
  else if cursor.length < dstConnIdSize then .error .FRAME_ENCODING_ERROR
  else .ok (cursor.take dstConnIdSize, cursor.drop dstConnIdSize)

/-- `parseShortHeader`: checks the form bit, the fixed bit and the
reserved bits, then reads the destination connection id and the key
phase. -/
def parseShortHeader (initialByte : Nat) (cursor : List Nat)
    (dstConnIdSize : Nat) : Except TransportErrorCode ShortHeaderData :=
  if getHeaderForm initialByte ≠ .Short then .error .FRAME_ENCODING_ERROR
  else if initialByte &&& ShortHeader.kFixedBitMask = 0 then
    -- the specs do not say which error code to use here
    .error .FRAME_ENCODING_ERROR
  else if initialByte &&& ShortHeader.kReservedBitsMask ≠ 0 then
    .error .PROTOCOL_VIOLATION
  else
    match parseShortHeaderInvariants initialByte cursor dstConnIdSize with
    | .error _ => .error .FRAME_ENCODING_ERROR
    | .ok (destinationConnId, _) =>
      let protectionType :=
        if initialByte &&& ShortHeader.kKeyPhaseMask ≠ 0 then
          ProtectionType.KeyPhaseOne
        else ProtectionType.KeyPhaseZero
      .ok ⟨protectionType, destinationConnId, none⟩

/-! ## Packet builders (`QuicPacketBuilder.cpp`) -/

/-- `PacketNumEncodingResult`: the (untruncated) packet number and the
number of bytes it occupies on the wire. -/
structure PacketNumEncodingResult where
  result : Nat
  length : Nat
  deriving DecidableEq, Repr

/-- Modelled from the spec: `encodePacketNumber` (spec 4.2;
`PacketNumber.cpp` is outside the source sample): pick the smallest
length in 1..4 whose window `2^(8*len-1)` strictly exceeds
`pn - largestAcked`; the value is truncated when written. -/
def encodePacketNumber (packetNum largestAcked : Nat) :
    PacketNumEncodingResult :=
  let gap := packetNum - largestAcked
  let length :=
    if gap < 2 ^ 7 then 1
    else if gap < 2 ^ 15 then 2
    else if gap < 2 ^ 23 then 3
    else 4
  ⟨packetNum, length⟩

/-- Result of `encodeLongHeaderHelper`: the header bytes written so far
(the packet-length and packet-number slots are still deferred), the
packet-number encoding, and the updated space counter. -/
structure LongHeaderEncodeResult where
  bytes : List Nat
  pnEncoding : PacketNumEncodingResult
  spaceCounter : Nat
  deriving DecidableEq, Repr

/-- `encodeLongHeaderHelper`. -/
def encodeLongHeaderHelper (longHeader : LongHeaderData)
    (spaceCounter largestAckedPacketNum : Nat) : LongHeaderEncodeResult :=
  let initialByte0 := kHeaderFormMask ||| LongHeader.kFixedBitMask |||
    (longHeader.headerType.toNat <<< LongHeader.kTypeShift)
  let encodedPacketNum :=
    encodePacketNumber longHeader.packetSequenceNum largestAckedPacketNum
  let initialByte1 := (initialByte0 &&& (255 - LongHeader.kReservedBitsMask))
    ||| (encodedPacketNum.length - 1)
  let odcid := longHeader.originalDstConnId.getD []
  let initialByte :=
    if longHeader.headerType = .Retry then
      (initialByte1 &&& 0xF0) |||
        (if odcid.length = 0 then 0 else odcid.length - 3)
    else initialByte1
  let isInitial := longHeader.headerType = .Initial
  let tokenHeaderLength :=
    if isInitial then quicIntegerSize longHeader.token.length +
      longHeader.token.length
    else 0
  let longHeaderSize := 1 + 4 + 1 + longHeader.srcConnId.length + 1 +
    longHeader.dstConnId.length + tokenHeaderLength + kMaxPacketLenSize +
    encodedPacketNum.length
  let spaceCounter' :=
    if spaceCounter < longHeaderSize then 0 else spaceCounter - longHeaderSize
  let bytes := [initialByte] ++ beBytes 4 longHeader.version ++
    [longHeader.dstConnId.length % 256] ++ longHeader.dstConnId ++
    [longHeader.srcConnId.length % 256] ++ longHeader.srcConnId ++
    (if isInitial then
       encodeQuicInteger longHeader.token.length ++ longHeader.token
     else []) ++
    (if longHeader.headerType = .Retry then
       [odcid.length % 256] ++ odcid ++ longHeader.token
     else [])
  ⟨bytes, encodedPacketNum, spaceCounter'⟩

/-- `encodeShortHeaderHelper`: `none` models the too-little-space branch,
where the space counter is zeroed and no packet-number encoding exists. -/
def encodeShortHeaderHelper (shortHeader : ShortHeaderData)
    (spaceCounter largestAckedPacketNum : Nat) :
    Option (List Nat × PacketNumEncodingResult × Nat) :=
  let packetNumberEncoding := encodePacketNumber
    (shortHeader.packetSequenceNum.getD 0) largestAckedPacketNum
  if spaceCounter <
      1 + packetNumberEncoding.length + shortHeader.connectionId.length then
    none
  else
    let initialByte0 :=
      ShortHeader.kFixedBitMask ||| (packetNumberEncoding.length - 1)
    let initialByte1 := initialByte0 &&& (255 - ShortHeader.kReservedBitsMask)
    let initialByte :=
      if shortHeader.protectionType = .KeyPhaseOne then
        initialByte1 ||| ShortHeader.kKeyPhaseMask
      else initialByte1
    some ([initialByte] ++ shortHeader.connectionId, packetNumberEncoding,
      spaceCounter - 1 - shortHeader.connectionId.length)

/-- The mutable state shared by both builder variants: the header bytes
written by the constructor, the deferred packet-number encoding, the body
written so far, the recorded frames (kept opaque: the builder only stores
them), the space budget and the cipher overhead. -/
structure BuilderState where
  header : PacketHeader
  headerBytes : List Nat
  packetNumberEncoding : PacketNumEncodingResult
  body : List Nat
  frames : List Nat
  remainingBytes : Nat
  cipherOverhead : Nat
  deriving DecidableEq, Repr

/-- The constructor common to `RegularQuicPacketBuilder` and
`InplaceQuicPacketBuilder` (both encode the header eagerly; for short
headers the packet number is appended at once; `none` models the
short-header builder whose `packetNumberEncoding_` stays unset). -/
def PacketBuilder.new (remainingBytes : Nat) (header : PacketHeader)
    (largestAckedPacketNum : Nat) : Option BuilderState :=
  match header with
  | .long lh =>
    let r := encodeLongHeaderHelper lh remainingBytes largestAckedPacketNum
    some ⟨header, r.bytes, r.pnEncoding, [], [], r.spaceCounter, 0⟩
  | .short sh =>
    match encodeShortHeaderHelper sh remainingBytes largestAckedPacketNum with
    | none => none
    | some (bytes, pnEnc, space) =>
      some ⟨header, bytes ++ beBytes pnEnc.length pnEnc.result, pnEnc, [], [],
        space - pnEnc.length, 0⟩

/-- `push` / `writeBE` into the body. -/
def BuilderState.pushBytes (st : BuilderState) (data : List Nat) :
    BuilderState :=
  { st with body := st.body ++ data,
            remainingBytes := st.remainingBytes - data.length }

/-- `appendFrame`: records the frame for post-encryption accounting. -/
def BuilderState.appendWriteFrame (st : BuilderState) (frame : Nat) :
    BuilderState :=
  { st with frames := st.frames ++ [frame] }

/-- `setCipherOverhead`. -/
def BuilderState.setCipherOverhead (st : BuilderState) (overhead : Nat) :
    BuilderState :=
  { st with cipherOverhead := overhead }

/-- The body-padding loop shared by both `buildPacket` variants: one
padding byte per iteration, while the accounted body is still below the
minimum, there is at least one frame, and more than `kMaxPacketLenSize`
budget bytes remain. -/
def padGo : Nat → Nat → Bool → Nat
  | 0, _, _ => 0
  | needed + 1, rem, framesEmpty =>
    if framesEmpty then 0
    else if rem ≤ kMaxPacketLenSize then 0
    else 1 + padGo needed (rem - 1) framesEmpty

/-- The built packet: the final header bytes and body bytes. -/
structure BuiltPacket where
  header : PacketHeader
  frames : List Nat
  headerBytes : List Nat
  bodyBytes : List Nat
  deriving DecidableEq, Repr

/-- Whether `buildPacket` back-patches the length and packet-number slots
(`longHeader && longHeader->getHeaderType() != LongHeader::Types::Retry`). -/
def PacketHeader.isLongNonRetry : PacketHeader → Bool
  | .long lh => lh.headerType ≠ .Retry
  | .short _ => false

/-- `RegularQuicPacketBuilder::buildPacket`: pads the body, then appends
the packet-length varint (shortest form, computed from the body length
after padding) and the packet number to the header buffer. -/
def RegularQuicPacketBuilder.buildPacket (st : BuilderState) : BuiltPacket :=
  let minBodySize := kMaxPacketNumEncodingSize -
    st.packetNumberEncoding.length + sizeofSample
  let bodyLength := st.body.length
  let extraDataWritten := padGo (minBodySize - (bodyLength + st.cipherOverhead))
    st.remainingBytes st.frames.isEmpty
  let body' := st.body ++ List.replicate extraDataWritten 0
  let headerBytes' :=
    if st.header.isLongNonRetry then
      st.headerBytes ++
        encodeQuicInteger (st.packetNumberEncoding.length + body'.length +
          st.cipherOverhead) ++
        beBytes st.packetNumberEncoding.length st.packetNumberEncoding.result
    else st.headerBytes
  ⟨st.header, st.frames, headerBytes', body'⟩

/-- `InplaceQuicPacketBuilder::buildPacket`: pads the body, then
back-fills the reserved `kMaxPacketLenSize`-wide packet-length slot (from
the body length captured before padding) and the packet-number slot. -/
def InplaceQuicPacketBuilder.buildPacket (st : BuilderState) : BuiltPacket :=
  let minBodySize := kMaxPacketNumEncodingSize -
    st.packetNumberEncoding.length + sizeofSample
  let bodyLength := st.body.length
  let extraDataWritten := padGo (minBodySize - (bodyLength + st.cipherOverhead))
    st.remainingBytes st.frames.isEmpty
  let body' := st.body ++ List.replicate extraDataWritten 0
  let headerBytes' :=
    if st.header.isLongNonRetry then
      st.headerBytes ++
        encodeQuicIntegerAtLeast kMaxPacketLenSize
          (st.packetNumberEncoding.length + bodyLength + st.cipherOverhead) ++
        beBytes st.packetNumberEncoding.length st.packetNumberEncoding.result
    else st.headerBytes
  ⟨st.header, st.frames, headerBytes', body'⟩

/-- `StatelessResetPacketBuilder`: one fixed-bit byte, then
`maxPacketSize - tokenLen - 1` bytes (computed in unsigned arithmetic and
truncated to `uint16_t`) drawn from the secure random source, then the
reset token.  `randomByte` models `folly::Random::secureRandom`. -/
def StatelessResetPacketBuilder.build (maxPacketSize : Nat)
    (resetToken : List Nat) (randomByte : Nat → Nat) : List Nat :=
  let randomOctetLength :=
    (maxPacketSize + 2 ^ 64 - (resetToken.length + 1)) % 2 ^ 16
  let initialByte := ShortHeader.kFixedBitMask
  [initialByte] ++ (List.range randomOctetLength).map randomByte ++ resetToken

/-! ## Version-negotiation builder -/

/-- The version field of a version-negotiation packet (spec 4.7:
"version field = 0"). -/
def versionNegotiationVersion : Nat := 0

/-- `generateRandomPacketType` currently returns the header-form bit. -/
def generateRandomPacketType : Nat := kHeaderFormMask

structure VersionNegotiationPacket where
  packetType : Nat
  sourceConnectionId : List Nat
  destinationConnectionId : List Nat
  versions : List Nat
  deriving DecidableEq, Repr

/-- The version loop of `writeVersionNegotiationPacket`: stop as soon as
fewer than `sizeof(QuicVersionType)` = 4 budget bytes remain; otherwise
write the 4-byte version, deduct it, and record it in the packet. -/
def vnWriteVersionsLoop : List Nat → Nat → List Nat × List Nat
  | [], _ => ([], [])
  | version :: rest, rem =>
    if rem < 4 then ([], [])
    else
      let (bytes, emitted) := vnWriteVersionsLoop rest (rem - 4)
      (beBytes 4 version ++ bytes, version :: emitted)

/-- `VersionNegotiationPacketBuilder`: constructor plus
`writeVersionNegotiationPacket`; returns the packet structure and the
wire bytes. -/
def VersionNegotiationPacketBuilder.build (sourceConnectionId : List Nat)
    (destinationConnectionId : List Nat) (versions : List Nat) :
    VersionNegotiationPacket × List Nat :=
  let headerBytes := [generateRandomPacketType] ++
    beBytes 4 versionNegotiationVersion ++
    [destinationConnectionId.length % 256] ++ destinationConnectionId ++
    [sourceConnectionId.length % 256] ++ sourceConnectionId
  let rem := kDefaultUDPSendPacketLen -
    (1 + 4 + 1 + destinationConnectionId.length + 1 +
      sourceConnectionId.length)
  let (versionBytes, emitted) := vnWriteVersionsLoop versions rem
  (⟨generateRandomPacketType, sourceConnectionId, destinationConnectionId,
      emitted⟩,
    headerBytes ++ versionBytes)

/-! ## Server worker routing state

`QuicServerWorker.cpp` is not part of the source sample; the definitions
in this section are modelled from the spec (3 "Worker routing tables",
4.8, 4.9), with observable behaviour fixed by the worker tests that are
in the sample (`QuicServerTest.cpp`). -/

/-- A transport handle (opaque to the router). -/
abbrev TransportId := Nat

/-- A peer socket address (opaque to the routing tables). -/
abbrev PeerAddress := Nat

/-- `QuicServerTransport::SourceIdentity`: (peer address, client cid). -/
abbrev SourceIdentity := PeerAddress × List Nat

/-- Modelled from the spec: the worker's routing tables (spec 3):
`ConnIdMap`, `SrcToTransportMap` and `RejectedCidSet`. -/
structure WorkerState where
  connectionIdMap : List (List Nat × TransportId)
  sourceAddrMap : List (SourceIdentity × TransportId)
  rejectedCids : List (List Nat)
  deriving DecidableEq, Repr

/-- `ConnIdMap` lookup. -/
def WorkerState.getConnId (st : WorkerState) (cid : List Nat) :
    Option TransportId :=
  (st.connectionIdMap.find? (fun e => e.1 == cid)).map (·.2)

/-- Modelled from the spec: `rejectConnectionId` answers whether a
candidate connection id is already taken in `ConnIdMap` (behaviour fixed
by the `RejectCid` test: true after `onConnectionIdAvailable`, false
again after `onConnectionUnbound`). -/
def WorkerState.rejectConnectionId (st : WorkerState) (candidate : List Nat) :
    Bool :=
  st.connectionIdMap.any (fun e => e.1 == candidate)

/-- Modelled from the spec: `onConnectionIdAvailable` registers a
server-chosen cid for a transport in `ConnIdMap` (spec 4.8). -/
def WorkerState.onConnectionIdAvailable (st : WorkerState)
    (transport : TransportId) (cid : List Nat) : WorkerState :=
  { st with connectionIdMap := st.connectionIdMap ++ [(cid, transport)] }

/-- Modelled from the spec: `onConnectionUnbound` (spec 4.8): remove all
the transport's cids from `ConnIdMap`, move them into `RejectedCidSet`,
and remove its source identity from `SrcToTransportMap`. -/
def WorkerState.onConnectionUnbound (st : WorkerState)
    (sourceIdentity : SourceIdentity) (cids : List (List Nat)) :
    WorkerState :=
  { connectionIdMap :=
      st.connectionIdMap.filter (fun e => ¬ cids.contains e.1),
    sourceAddrMap := st.sourceAddrMap.filter (fun e => e.1 ≠ sourceIdentity),
    rejectedCids := st.rejectedCids ++ cids }

/-- The server process id encoded in server-chosen connection ids. -/
inductive ProcessId where
  | zero
  | one
  deriving DecidableEq, Repr

/-- Outcome of classifying a datagram that matched no routing table. -/
inductive RoutingAction where
  | newTransport
  | statelessReset
  | forward
  | drop
  deriving DecidableEq, Repr

/-- Modelled from the spec: steps 5-9 of the worker's ingress
classification (spec 4.8) for a packet that matched neither `ConnIdMap`
nor `SrcToTransportMap`, and the takeover trigger of spec 4.9 (forward
exactly when the packet is not a client Initial, its cid decodes to a
foreign process id, forwarding is on, and the packet has not already been
forwarded once). -/
def routeUnmatchedPacket (isInitial isShortHeader : Bool)
    (initialSizeAndCidOk factoryProvidesTransport hostIdMismatch : Bool)
    (cidProcessId myProcessId : ProcessId)
    (packetForwardingEnabled isForwardedData : Bool) : RoutingAction :=
  if isInitial then
    if initialSizeAndCidOk then
      if factoryProvidesTransport then .newTransport else .drop
    else .drop
  else if hostIdMismatch && isShortHeader then .statelessReset
  else if packetForwardingEnabled && !isForwardedData &&
      cidProcessId ≠ myProcessId then .forward
  else .drop

/-! ## Takeover envelope (spec 4.9) -/

/-- The takeover protocol version (checked by the test's reader: 1). -/
def kTakeoverProtocolVersion : Nat := 1

/-- Modelled from the spec: the forwarding envelope written to the peer
server's takeover socket (spec 4.9): 32-bit version 1, 16-bit peer
address length, the peer sockaddr bytes, 64-bit receive epoch, then the
unmodified datagram. -/
def encodeTakeoverPacket (peerAddress : List Nat) (receiveEpoch : Nat)
    (datagram : List Nat) : List Nat :=
  beBytes 4 kTakeoverProtocolVersion ++
    beBytes 2 peerAddress.length ++ peerAddress ++
    beBytes 8 receiveEpoch ++ datagram

/-- A `NetworkData` recovered by the takeover reader, together with the
peer address of the original sender and the forwarded mark. -/
structure ForwardedNetworkData where
  peerAddress : List Nat
  receiveEpoch : Nat
  datagram : List Nat
  isForwardedData : Bool
  deriving DecidableEq, Repr

/-- Modelled from the spec: the peer's takeover reader (spec 4.9): strip
the envelope, recover the original peer address and datagram, and mark
the result as forwarded. -/
def decodeTakeoverPacket (bytes : List Nat) : Option ForwardedNetworkData :=
  if bytes.length < 4 then none
  else
    let version := beValue (bytes.take 4)
    if version ≠ kTakeoverProtocolVersion then none
    else
      let r₁ := bytes.drop 4
      if r₁.length < 2 then none
      else
        let addrLen := beValue (r₁.take 2)
        let r₂ := r₁.drop 2
        if r₂.length < addrLen then none
        else
          let peerAddress := r₂.take addrLen
          let r₃ := r₂.drop addrLen
          if r₃.length < 8 then none
          else some ⟨peerAddress, beValue (r₃.take 8), r₃.drop 8, true⟩

/-! ## Claim C2 -/

/-- C2 (counterexample): replaying the `RejectCid` test scenario —
register cid `[1]` for transport 7, then unbind it — refutes the claim
that `rejectConnectionId` returns true for an unbound cid: the worker
answers `false` (the test expects exactly that, `EXPECT_FALSE` after
`onConnectionUnbound`). -/
theorem onConnectionUnbound_reject_cex :
    ¬ (((((WorkerState.mk [] [] []).onConnectionIdAvailable 7
            [1]).onConnectionUnbound (0, [1]) [[1]]).getConnId [1] = none ∧
        ((((WorkerState.mk [] [] []).onConnectionIdAvailable 7
            [1]).onConnectionUnbound (0, [1]) [[1]]).rejectConnectionId [1])
          = true)) := by
  decide

/-- C2 (amended): after `onConnectionUnbound(t, src, cids)` returns, for
every `c ∈ cids` the worker's ConnIdMap contains no entry for `c`, and
`rejectConnectionId c` returns `false` (it reports whether a candidate
cid is still taken in the map, so a freed cid is no longer rejected). -/
theorem onConnectionUnbound_removes (st : WorkerState) (src : SourceIdentity)
    (cids : List (List Nat)) (c : List Nat) (hc : c ∈ cids) :
    (st.onConnectionUnbound src cids).getConnId c = none ∧
    (st.onConnectionUnbound src cids).rejectConnectionId c = false := by
  have hcontains : cids.contains c = true := by
    simpa using List.elem_eq_true_of_mem hc
  constructor
  · rw [WorkerState.onConnectionUnbound, WorkerState.getConnId]
    rw [Option.map_eq_none', List.find?_eq_none]
    intro x hx
    simp only [List.mem_filter, decide_eq_true_eq] at hx
    intro hbeq
    exact hx.2 (by rwa [eq_of_beq hbeq])
  · rw [WorkerState.onConnectionUnbound, WorkerState.rejectConnectionId]
    rw [List.any_eq_false]
    intro x hx
    simp only [List.mem_filter, decide_eq_true_eq] at hx
    intro hbeq
    exact hx.2 (by rwa [eq_of_beq hbeq])

/-- C2 witness: the amended theorem applied to the `RejectCid` scenario. -/
theorem onConnectionUnbound_removes_witness :
    ((((WorkerState.mk [] [] []).onConnectionIdAvailable 7
        [1]).onConnectionUnbound (0, [1]) [[1]]).getConnId [1] = none) ∧
    ((((WorkerState.mk [] [] []).onConnectionIdAvailable 7
        [1]).onConnectionUnbound (0, [1]) [[1]]).rejectConnectionId [1]
      = false) :=
  onConnectionUnbound_removes _ _ _ _ (by decide)

/-! ## Claim C6 -/

/-- C6: a client Initial is never forwarded to the peer server, for any
process id in its destination cid and whether or not forwarding is
enabled; a non-Initial packet whose cid decodes to a foreign process id
is forwarded when forwarding is enabled (and the packet was not itself
forwarded, and does not hit the wrong-host reset path). -/
theorem clientInitial_never_forwarded :
    (∀ (isShort sizeOk factory hostMis : Bool) (cidP myP : ProcessId)
        (fwd fwded : Bool),
        routeUnmatchedPacket true isShort sizeOk factory hostMis cidP myP
          fwd fwded ≠ .forward) ∧
    (∀ (isShort sizeOk factory : Bool) (cidP myP : ProcessId),
        cidP ≠ myP →
        routeUnmatchedPacket false isShort sizeOk factory false cidP myP
          true false = .forward) := by
  constructor
  · intro isShort sizeOk factory hostMis cidP myP fwd fwded
    cases sizeOk <;> cases factory <;> simp [routeUnmatchedPacket]
  · intro isShort sizeOk factory cidP myP hne
    simp [routeUnmatchedPacket, hne]

/-- C6 witness: the theorem applied to the takeover test configuration
(`processId` one on the worker, zero in the cid). -/
theorem clientInitial_never_forwarded_witness :
    routeUnmatchedPacket false false true true false .zero .one true false
      = .forward ∧
    routeUnmatchedPacket true false true true false .zero .one true false
      ≠ .forward :=
  ⟨clientInitial_never_forwarded.2 false true true .zero .one (by decide),
   clientInitial_never_forwarded.1 false true true false .zero .one true
     false⟩

/-! ## Claim C7 -/

/-- C7: the takeover envelope round-trips: forwarding wraps the datagram
as version 1 (u32), peer-address length (u16), the peer sockaddr bytes,
the receive epoch (u64), then the unmodified datagram; the receiving
reader strips the envelope and recovers exactly the original datagram and
peer address, marking the data as forwarded. -/
theorem takeover_envelope_roundtrip (peerAddress : List Nat)
    (receiveEpoch : Nat) (datagram : List Nat)
    (haddr : peerAddress.length < 2 ^ 16) (hepoch : receiveEpoch < 2 ^ 64) :
    decodeTakeoverPacket (encodeTakeoverPacket peerAddress receiveEpoch
      datagram) = some ⟨peerAddress, receiveEpoch, datagram, true⟩ := by
  have hlen : peerAddress.length % 2 ^ 16 = peerAddress.length :=
    Nat.mod_eq_of_lt haddr
  have hep : receiveEpoch % 2 ^ 64 = receiveEpoch := Nat.mod_eq_of_lt hepoch
  unfold encodeTakeoverPacket decodeTakeoverPacket
  simp only [List.append_assoc]
  rw [List.take_left' (beBytes_length 4 _), List.drop_left' (beBytes_length 4 _)]
  rw [List.take_left' (beBytes_length 2 _), List.drop_left' (beBytes_length 2 _)]
  simp only [beValue_beBytes]
  norm_num [hlen, kTakeoverProtocolVersion]
  have hlen' : peerAddress.length % 65536 = peerAddress.length := by
    refine Nat.mod_eq_of_lt ?_
    norm_num at haddr
    exact haddr
  rw [hlen']
  refine ⟨?_, ?_, ?_, ?_, ?_, ?_, ?_⟩
  · simp [beBytes_length]
  · simp [beBytes_length]
  · omega
  · simp [beBytes_length]
  · exact List.take_left' rfl
  · rw [List.drop_left' rfl, List.take_left' (beBytes_length 8 _),
      beValue_beBytes]
    norm_num at hepoch ⊢
    exact hepoch
  · rw [← List.append_assoc]
    exact List.drop_left' (by simp [beBytes_length])

/-- C7 witness: a concrete envelope round-trip. -/
theorem takeover_envelope_roundtrip_witness :
    decodeTakeoverPacket (encodeTakeoverPacket [9, 9] 77 [1, 2, 3]) =
      some ⟨[9, 9], 77, [1, 2, 3], true⟩ :=
  takeover_envelope_roundtrip [9, 9] 77 [1, 2, 3] (by norm_num) (by norm_num)

/-! ## Claim C8 -/

/-- C8 (counterexample): at `maxPacketSize = 16` (not above the token
length) the random-octet count wraps in `uint16_t` arithmetic and the
built datagram is 65552 bytes long, not 16: the claimed layout does not
hold for every `maxPacketSize`. -/
theorem statelessReset_length (maxPacketSize : Nat) (resetToken : List Nat)
    (randomByte : Nat → Nat) :
    (StatelessResetPacketBuilder.build maxPacketSize resetToken
      randomByte).length =
      1 + (maxPacketSize + 2 ^ 64 - (resetToken.length + 1)) % 2 ^ 16 +
        resetToken.length := by
  simp only [StatelessResetPacketBuilder.build, List.length_append,
    List.length_map, List.length_range, List.length_cons, List.length_nil]

theorem statelessReset_size_cex :
    (StatelessResetPacketBuilder.build 16 (List.replicate 16 9)
      (fun _ => 7)).length = 65552 ∧ (65552 : Nat) ≠ 16 := by
  constructor
  · rw [statelessReset_length]
    norm_num
  · norm_num

/-- C8 (amended): for every `maxPacketSize` exceeding the token length
(and within `uint16_t` range) and 16-byte reset token, the builder emits
exactly one initial byte with only the fixed bit set, then
`maxPacketSize - tokenLength - 1` random bytes, then the token; the
datagram is `maxPacketSize` bytes and its last 16 bytes are the token. -/
theorem statelessReset_layout (maxPacketSize : Nat) (resetToken : List Nat)
    (randomByte : Nat → Nat)
    (htoken : resetToken.length = statelessResetTokenLength)
    (hlo : statelessResetTokenLength + 1 ≤ maxPacketSize)
    (hhi : maxPacketSize < 2 ^ 16) :
    StatelessResetPacketBuilder.build maxPacketSize resetToken randomByte =
      [ShortHeader.kFixedBitMask] ++
        (List.range (maxPacketSize - resetToken.length - 1)).map randomByte ++
        resetToken ∧
    (StatelessResetPacketBuilder.build maxPacketSize resetToken
      randomByte).length = maxPacketSize ∧
    (StatelessResetPacketBuilder.build maxPacketSize resetToken
      randomByte).drop (maxPacketSize - statelessResetTokenLength) =
      resetToken := by
  rw [statelessResetTokenLength] at htoken hlo
  have hhi' : maxPacketSize < 65536 := by
    rw [show (2 : Nat) ^ 16 = 65536 from by norm_num] at hhi
    exact hhi
  have hroct : (maxPacketSize + 2 ^ 64 - (16 + 1)) % 2 ^ 16 =
      maxPacketSize - 16 - 1 := by
    rw [show (2 : Nat) ^ 64 = 65536 * 281474976710656 from by norm_num,
      show (2 : Nat) ^ 16 = 65536 from by norm_num,
      show maxPacketSize + 65536 * 281474976710656 - (16 + 1) =
        (maxPacketSize - 16 - 1) + 65536 * 281474976710656 from by omega,
      Nat.add_mul_mod_self_left]
    exact Nat.mod_eq_of_lt (by omega)
  refine ⟨?_, ?_, ?_⟩
  · simp only [StatelessResetPacketBuilder.build, htoken, hroct]
  · simp only [StatelessResetPacketBuilder.build, htoken, hroct,
      List.length_append, List.length_cons, List.length_map,
      List.length_range, List.length_nil]
    omega
  · simp only [StatelessResetPacketBuilder.build, htoken, hroct,
      statelessResetTokenLength]
    refine List.drop_left' ?_
    simp only [List.length_append, List.length_cons, List.length_map,
      List.length_range, List.length_nil]
    omega

/-- C8 witness: the amended layout at `maxPacketSize = 30`. -/
theorem statelessReset_layout_witness :
    StatelessResetPacketBuilder.build 30 (List.replicate 16 9) (fun _ => 7) =
      [ShortHeader.kFixedBitMask] ++
        (List.range (30 - (List.replicate 16 9).length - 1)).map
          (fun _ => 7) ++ List.replicate 16 9 ∧
    (StatelessResetPacketBuilder.build 30 (List.replicate 16 9)
      (fun _ => 7)).length = 30 ∧
    (StatelessResetPacketBuilder.build 30 (List.replicate 16 9)
      (fun _ => 7)).drop (30 - statelessResetTokenLength) =
      List.replicate 16 9 :=
  statelessReset_layout 30 (List.replicate 16 9) (fun _ => 7) (by decide)
    (by decide) (by norm_num)

/-! ## Claim C10 -/

theorem vnWriteVersionsLoop_eq (versions : List Nat) (rem : Nat) :
    vnWriteVersionsLoop versions rem =
      (((versions.take (rem / 4)).map (beBytes 4)).flatten,
        versions.take (rem / 4)) := by
  induction versions generalizing rem with
  | nil => simp [vnWriteVersionsLoop]
  | cons v vs ih =>
    by_cases h : rem < 4
    · have h0 : rem / 4 = 0 := Nat.div_eq_of_lt h
      simp [vnWriteVersionsLoop, h, h0]
    · have h4 : rem / 4 = (rem - 4) / 4 + 1 := by omega
      simp [vnWriteVersionsLoop, h, ih, h4]

/-- C10: the version-negotiation builder emits a version only while at
least 4 budget bytes remain: the emitted list (in both the wire bytes and
the returned packet) is the longest prefix of the supplied versions that
fits the `kDefaultUDPSendPacketLen` budget left after the header. -/
theorem versionNegotiation_budget (sourceConnectionId : List Nat)
    (destinationConnectionId : List Nat) (versions : List Nat)
    (_hs : sourceConnectionId.length ≤ kMaxConnectionIdSize)
    (_hd : destinationConnectionId.length ≤ kMaxConnectionIdSize) :
    (VersionNegotiationPacketBuilder.build sourceConnectionId
        destinationConnectionId versions).1.versions =
      versions.take ((kDefaultUDPSendPacketLen -
        (1 + 4 + 1 + destinationConnectionId.length + 1 +
          sourceConnectionId.length)) / 4) ∧
    (VersionNegotiationPacketBuilder.build sourceConnectionId
        destinationConnectionId versions).2 =
      ([generateRandomPacketType] ++ beBytes 4 versionNegotiationVersion ++
        [destinationConnectionId.length % 256] ++ destinationConnectionId ++
        [sourceConnectionId.length % 256] ++ sourceConnectionId) ++
      ((versions.take ((kDefaultUDPSendPacketLen -
          (1 + 4 + 1 + destinationConnectionId.length + 1 +
            sourceConnectionId.length)) / 4)).map (beBytes 4)).flatten := by
  simp only [VersionNegotiationPacketBuilder.build, vnWriteVersionsLoop_eq]
  exact ⟨trivial, by simp [List.append_assoc]⟩

/-- C10 witness: with short cids all three supplied versions fit. -/
theorem versionNegotiation_budget_witness :
    (VersionNegotiationPacketBuilder.build [1] [2] [10, 11, 12]).1.versions
      = [10, 11, 12] := by
  rw [(versionNegotiation_budget [1] [2] [10, 11, 12] (by decide)
    (by decide)).1]
  decide

/-! ## Claim C9 -/

theorem consecutiveBytesEqual_replicate (m x : Nat) :
    consecutiveBytesEqual (List.replicate m x) = true := by
  induction m with
  | zero => rfl
  | succ k ih =>
    cases k with
    | zero => rfl
    | succ j =>
      rw [List.replicate_succ, List.replicate_succ]
      show (x == x && consecutiveBytesEqual (x :: List.replicate j x)) = true
      rw [← List.replicate_succ]
      simp [ih]

theorem decodePaddingFrame_replicate (m : Nat) :
    decodePaddingFrame (List.replicate m 0) = (.padding, []) := by
  cases m with
  | zero => rfl
  | succ k =>
    rw [List.replicate_succ]
    simp only [decodePaddingFrame]
    rw [if_neg (by simp), ← List.replicate_succ,
      if_pos (consecutiveBytesEqual_replicate (k + 1) 0)]

/-- C9: for every packet payload of one or more consecutive zero bytes,
frame parsing consumes all of them and produces exactly one Padding frame
for the whole run. -/
theorem parseFrame_padding_run (n : Nat) (hn : 1 ≤ n)
    (header : PacketHeader) (params : CodecParameters) :
    parseFrame (List.replicate n 0) header params = .ok (.padding, []) := by
  obtain ⟨m, rfl⟩ : ∃ m, n = m + 1 := ⟨n - 1, by omega⟩
  have hq : decodeQuicInteger (List.replicate (m + 1) 0) =
      some (0, 1, List.replicate m 0) := by
    rw [List.replicate_succ]
    simp [decodeQuicInteger, beValue]
  unfold parseFrame
  rw [if_neg (by simp [sizeofFrameType]), hq]
  simp [decodePaddingFrame_replicate m]

/-- C9 witness: a three-byte run of zeros. -/
theorem parseFrame_padding_run_witness :
    parseFrame (List.replicate 3 0) (.short ⟨.KeyPhaseZero, [], none⟩) ⟨3⟩ =
      .ok (.padding, []) :=
  parseFrame_padding_run 3 (by norm_num) (.short ⟨.KeyPhaseZero, [], none⟩)
    ⟨3⟩

/-! ## Claim C4 -/

/-- C4 (counterexample): the initial byte 0x00 has short-header form and
fixed bit 0; `parseShortHeader` fails with FRAME_ENCODING_ERROR there,
not with the PROTOCOL_VIOLATION the claim requires for every fixed-bit
failure. -/
theorem parseShortHeader_fixedBit_cex :
    getHeaderForm 0 = .Short ∧
    parseShortHeader 0 [1, 2] 2 = .error .FRAME_ENCODING_ERROR ∧
    TransportErrorCode.FRAME_ENCODING_ERROR ≠ .PROTOCOL_VIOLATION :=
  ⟨by decide, by decide, by decide⟩

/-- C4 (amended): for every initial byte with short-header form,
`parseShortHeader` fails with FRAME_ENCODING_ERROR when the fixed bit
(bit 6) is 0; fails with PROTOCOL_VIOLATION when the fixed bit is 1 but
the reserved bits are non-zero; and when it succeeds, the key phase of
the returned header is KeyPhaseOne exactly when bit 2 of the initial byte
is set. -/
theorem parseShortHeader_error_codes (initialByte : Nat) (cursor : List Nat)
    (dstConnIdSize : Nat) (hform : getHeaderForm initialByte = .Short) :
    (initialByte &&& ShortHeader.kFixedBitMask = 0 →
      parseShortHeader initialByte cursor dstConnIdSize =
        .error .FRAME_ENCODING_ERROR) ∧
    (initialByte &&& ShortHeader.kFixedBitMask ≠ 0 →
      initialByte &&& ShortHeader.kReservedBitsMask ≠ 0 →
      parseShortHeader initialByte cursor dstConnIdSize =
        .error .PROTOCOL_VIOLATION) ∧
    (∀ hdr, parseShortHeader initialByte cursor dstConnIdSize = .ok hdr →
      (hdr.protectionType = .KeyPhaseOne ↔
        initialByte &&& ShortHeader.kKeyPhaseMask ≠ 0)) := by
  refine ⟨?_, ?_, ?_⟩
  · intro h0
    simp [parseShortHeader, hform, h0]
  · intro h1 h2
    simp [parseShortHeader, hform, h1, h2]
  · intro hdr hok
    unfold parseShortHeader at hok
    rw [if_neg (by simp [hform])] at hok
    split at hok
    · exact absurd hok (by simp)
    split at hok
    · exact absurd hok (by simp)
    split at hok
    · exact absurd hok (by simp)
    · injection hok with hok
      subst hok
      by_cases hk : initialByte &&& ShortHeader.kKeyPhaseMask ≠ 0
      · simp [hk]
      · simp [hk]

/-- C4 witness: the amended behaviour at concrete bytes 0x00, 0x50 and
0x44. -/
theorem parseShortHeader_error_codes_witness :
    parseShortHeader 0 [1, 2] 2 = .error .FRAME_ENCODING_ERROR ∧
    parseShortHeader 0x50 [1, 2] 2 = .error .PROTOCOL_VIOLATION ∧
    (ProtectionType.KeyPhaseOne = ProtectionType.KeyPhaseOne ↔
      (0x44 : Nat) &&& ShortHeader.kKeyPhaseMask ≠ 0) :=
  ⟨(parseShortHeader_error_codes 0 [1, 2] 2 (by decide)).1 (by decide),
   (parseShortHeader_error_codes 0x50 [1, 2] 2 (by decide)).2.1 (by decide)
     (by decide),
   (parseShortHeader_error_codes 0x44 [1, 2] 2 (by decide)).2.2
     ⟨.KeyPhaseOne, [1, 2], none⟩ (by decide)⟩

/-! ## Claim C5 -/

/-- All iterations of the padding loop run when the space budget covers
the needed padding plus the `kMaxPacketLenSize` guard. -/
theorem padGo_full (needed rem : Nat)
    (h : needed + kMaxPacketLenSize ≤ rem) :
    padGo needed rem false = needed := by
  induction needed generalizing rem with
  | zero => rfl
  | succ k ih =>
    rw [padGo, if_neg (by simp),
      if_neg (by rw [kMaxPacketLenSize] at h ⊢; omega),
      ih (rem - 1) (by rw [kMaxPacketLenSize] at h ⊢; omega)]
    omega

/-- A reachable builder state with one frame, a one-byte body and only
three budget bytes left. -/
def c5State : BuilderState :=
  (((PacketBuilder.new 16 (.long ⟨.Handshake, 5, [], [], 3, [], none⟩)
        2).getD
      ⟨.long ⟨.Handshake, 5, [], [], 3, [], none⟩, [], ⟨0, 1⟩, [], [], 0,
        0⟩).pushBytes [1]).appendWriteFrame 0

/-- The same build with a 100-byte budget (88 bytes left at build time). -/
def c5BigState : BuilderState :=
  (((PacketBuilder.new 100 (.long ⟨.Handshake, 5, [], [], 3, [], none⟩)
        2).getD
      ⟨.long ⟨.Handshake, 5, [], [], 3, [], none⟩, [], ⟨0, 1⟩, [], [], 0,
        0⟩).pushBytes [1]).appendWriteFrame 0

/-- C5 (counterexample): a build whose body plus cipher overhead starts
below the sampling minimum and stays below it, because only 3 budget
bytes remain: the padding loop also requires more than
`kMaxPacketLenSize` remaining bytes, which the claim does not mention. -/
theorem buildPacket_padding_cex :
    c5State.body.length + 0 + c5State.cipherOverhead <
      kMaxPacketNumEncodingSize - c5State.packetNumberEncoding.length +
        sizeofSample ∧
    (RegularQuicPacketBuilder.buildPacket c5State).bodyBytes.length +
        c5State.cipherOverhead <
      kMaxPacketNumEncodingSize - c5State.packetNumberEncoding.length +
        sizeofSample := by
  decide

/-- C5 (amended): for every packet built by either builder variant that
records at least one frame and has `neededPadding + kMaxPacketLenSize`
budget bytes left, buildPacket appends padding until the body plus cipher
overhead reaches `kMaxPacketNumEncodingSize - pnLen + sampleSize`, so the
packet carries enough ciphertext for header-protection sampling. -/
theorem buildPacket_pads_to_min_body (st : BuilderState)
    (hframes : st.frames ≠ [])
    (hrem : (kMaxPacketNumEncodingSize - st.packetNumberEncoding.length +
        sizeofSample) - (st.body.length + st.cipherOverhead) +
        kMaxPacketLenSize ≤ st.remainingBytes) :
    kMaxPacketNumEncodingSize - st.packetNumberEncoding.length +
        sizeofSample ≤
      (RegularQuicPacketBuilder.buildPacket st).bodyBytes.length +
        st.cipherOverhead ∧
    kMaxPacketNumEncodingSize - st.packetNumberEncoding.length +
        sizeofSample ≤
      (InplaceQuicPacketBuilder.buildPacket st).bodyBytes.length +
        st.cipherOverhead := by
  have hempty : st.frames.isEmpty = false := by
    cases hfr : st.frames with
    | nil => exact absurd hfr hframes
    | cons a l => rfl
  constructor
  · simp only [RegularQuicPacketBuilder.buildPacket, hempty]
    rw [padGo_full _ _ hrem]
    simp only [List.length_append, List.length_replicate]
    omega
  · simp only [InplaceQuicPacketBuilder.buildPacket, hempty]
    rw [padGo_full _ _ hrem]
    simp only [List.length_append, List.length_replicate]
    omega

/-- C5 witness: the amended bound at a concrete state with enough
budget. -/
theorem buildPacket_pads_to_min_body_witness :
    kMaxPacketNumEncodingSize - c5BigState.packetNumberEncoding.length +
        sizeofSample ≤
      (RegularQuicPacketBuilder.buildPacket c5BigState).bodyBytes.length +
        c5BigState.cipherOverhead ∧
    kMaxPacketNumEncodingSize - c5BigState.packetNumberEncoding.length +
        sizeofSample ≤
      (InplaceQuicPacketBuilder.buildPacket c5BigState).bodyBytes.length +
        c5BigState.cipherOverhead :=
  buildPacket_pads_to_min_body c5BigState (by decide) (by decide)

/-! ## Claim C3 -/

theorem quicIntegerSize_le_four (v : Nat) (hv : v < 2 ^ 30) :
    quicIntegerSize v ≤ 4 := by
  unfold quicIntegerSize
  by_cases h1 : v < 2 ^ 6
  · rw [if_pos h1]
    norm_num
  rw [if_neg h1]
  by_cases h2 : v < 2 ^ 14
  · rw [if_pos h2]
    norm_num
  rw [if_neg h2, if_pos hv]

theorem encodeQuicIntegerAtLeast_four_length (v : Nat) (hv : v < 2 ^ 30) :
    (encodeQuicIntegerAtLeast kMaxPacketLenSize v).length =
      kMaxPacketLenSize := by
  have hle := quicIntegerSize_le_four v hv
  unfold encodeQuicIntegerAtLeast
  rw [show max (quicIntegerSize v) kMaxPacketLenSize = 4 from by
    rw [kMaxPacketLenSize]; omega]
  rw [kMaxPacketLenSize]
  exact encodeQuicIntegerOfSize_length 4 v (by norm_num)

/-- A reachable builder state: long Handshake header, empty connection
ids, a one-byte body and one recorded frame. -/
def c3State : BuilderState :=
  (((PacketBuilder.new 100 (.long ⟨.Handshake, 5, [], [], 3, [], none⟩)
        2).getD
      ⟨.long ⟨.Handshake, 5, [], [], 3, [], none⟩, [], ⟨0, 1⟩, [], [], 0,
        0⟩).pushBytes [1]).appendWriteFrame 0

/-- C3 (counterexample): on a concrete long non-Retry build the growable
builder emits a one-byte packet-length varint, not the claimed
`kMaxPacketLenSize` (4) bytes. -/
theorem regular_len_field_cex :
    c3State.header.isLongNonRetry = true ∧
    (RegularQuicPacketBuilder.buildPacket c3State).headerBytes.length =
      c3State.headerBytes.length + 1 +
        c3State.packetNumberEncoding.length ∧
    (RegularQuicPacketBuilder.buildPacket c3State).headerBytes.length ≠
      c3State.headerBytes.length + kMaxPacketLenSize +
        c3State.packetNumberEncoding.length := by
  decide

/-- C3 (amended): for long non-Retry headers, the in-place builder
back-patches a packet-length varint of exactly `kMaxPacketLenSize` (4)
bytes whenever the length value fits a 4-byte varint, but the growable
builder appends a shortest-form varint, whose width is the canonical
width of the final length value. -/
theorem packetLen_field_width (st : BuilderState)
    (hlong : st.header.isLongNonRetry = true) :
    ((st.packetNumberEncoding.length + st.body.length + st.cipherOverhead
        < 2 ^ 30) →
      (InplaceQuicPacketBuilder.buildPacket st).headerBytes.length =
        st.headerBytes.length + kMaxPacketLenSize +
          st.packetNumberEncoding.length) ∧
    (RegularQuicPacketBuilder.buildPacket st).headerBytes.length =
      st.headerBytes.length +
        quicIntegerSize (st.packetNumberEncoding.length +
          (RegularQuicPacketBuilder.buildPacket st).bodyBytes.length +
          st.cipherOverhead) +
        st.packetNumberEncoding.length := by
  constructor
  · intro hv
    simp only [InplaceQuicPacketBuilder.buildPacket, hlong, if_true]
    rw [List.length_append, List.length_append, beBytes_length,
      encodeQuicIntegerAtLeast_four_length _ hv]
  · simp only [RegularQuicPacketBuilder.buildPacket, hlong, if_true]
    rw [List.length_append, List.length_append, beBytes_length,
      encodeQuicInteger_length]

/-- C3 witness: both widths at the concrete state. -/
theorem packetLen_field_width_witness :
    (InplaceQuicPacketBuilder.buildPacket c3State).headerBytes.length =
      c3State.headerBytes.length + kMaxPacketLenSize +
        c3State.packetNumberEncoding.length ∧
    (RegularQuicPacketBuilder.buildPacket c3State).headerBytes.length =
      c3State.headerBytes.length +
        quicIntegerSize (c3State.packetNumberEncoding.length +
          (RegularQuicPacketBuilder.buildPacket c3State).bodyBytes.length +
          c3State.cipherOverhead) +
        c3State.packetNumberEncoding.length :=
  ⟨(packetLen_field_width c3State (by decide)).1 (by decide),
   (packetLen_field_width c3State (by decide)).2⟩

theorem nextAckedPacketGap_ok (pn gap c : Nat)
    (h : nextAckedPacketGap pn gap = .ok c) :
    gap + 2 ≤ pn ∧ c = pn - (gap + 2) := by
  unfold nextAckedPacketGap at h
  simp only [] at h
  split at h
  · exact absurd h (by simp)
  · injection h with h
    rename_i hlt
    exact ⟨by omega, h.symm⟩

theorem nextAckedPacketLen_ok (pn len c : Nat)
    (h : nextAckedPacketLen pn len = .ok c) :
    len ≤ pn ∧ c = pn - len := by
  unfold nextAckedPacketLen at h
  split at h
  · exact absurd h (by simp)
  · injection h with h
    rename_i hlt
    exact ⟨by omega, h.symm⟩

theorem decodeAckBlocksLoop_ok (n : Nat) :
    ∀ (cursor : List Nat) (current : Nat) (acc blocks : List AckBlock)
      (rest : List Nat),
      decodeAckBlocksLoop n cursor current acc = .ok (blocks, rest) →
      (∀ lb, acc.getLast? = some lb → lb.startPacket = current) →
      (∀ b ∈ acc, b.startPacket ≤ b.endPacket) →
      acc.Chain' (fun a b => b.endPacket + 1 < a.startPacket) →
      (∀ b ∈ blocks, b.startPacket ≤ b.endPacket) ∧
        blocks.Chain' (fun a b => b.endPacket + 1 < a.startPacket) ∧
        acc.length ≤ blocks.length := by
  induction n with
  | zero =>
    intro cursor current acc blocks rest hrun hlast hse hch
    simp only [decodeAckBlocksLoop, Except.ok.injEq, Prod.mk.injEq] at hrun
    obtain ⟨h1, h2⟩ := hrun
    subst h1
    exact ⟨hse, hch, Nat.le_refl _⟩
  | succ n ih =>
    intro cursor current acc blocks rest hrun hlast hse hch
    simp only [decodeAckBlocksLoop] at hrun
    split at hrun
    · exact absurd hrun (by simp)
    split at hrun
    · exact absurd hrun (by simp)
    split at hrun
    · exact absurd hrun (by simp)
    split at hrun
    · exact absurd hrun (by simp)
    rename_i _o1 gap w1 c1 heq1 _o2 blockLen w2 c2 heq2 _e1 nextEnd heq3 _e2
      nextStart heq4
    obtain ⟨hge, hEnd⟩ := nextAckedPacketGap_ok current gap nextEnd heq3
    obtain ⟨hlen, hStart⟩ := nextAckedPacketLen_ok nextEnd blockLen nextStart
      heq4
    have h := ih c2 nextStart (acc ++ [⟨nextStart, nextEnd⟩]) blocks rest
      hrun ?hl ?hs ?hc
    case hl =>
      intro lb hlb
      rw [List.getLast?_concat] at hlb
      injection hlb with hlb
      rw [← hlb]
    case hs =>
      intro b hb
      rcases List.mem_append.mp hb with hb | hb
      · exact hse b hb
      · have hb' : b = ⟨nextStart, nextEnd⟩ := by simpa using hb
        subst hb'
        show nextStart ≤ nextEnd
        omega
    case hc =>
      refine List.chain'_append.mpr ⟨hch, List.chain'_singleton _, ?_⟩
      intro x hx y hy
      have hy' : (⟨nextStart, nextEnd⟩ : AckBlock) = y := by simpa using hy
      subst hy'
      have hx' := hlast x (Option.mem_def.mp hx)
      show nextEnd + 1 < x.startPacket
      omega
    refine ⟨h.1, h.2.1, ?_⟩
    have := h.2.2
    simp only [List.length_append, List.length_cons, List.length_nil] at this
    omega

theorem nextAckedPacketGap_error (pn gap : Nat) (e : QuicError)
    (h : nextAckedPacketGap pn gap = .error e) : e = ackError := by
  unfold nextAckedPacketGap at h
  simp only [] at h
  split at h
  · injection h with h
    exact h.symm
  · exact absurd h (by simp)

theorem nextAckedPacketLen_error (pn len : Nat) (e : QuicError)
    (h : nextAckedPacketLen pn len = .error e) : e = ackError := by
  unfold nextAckedPacketLen at h
  split at h
  · injection h with h
    exact h.symm
  · exact absurd h (by simp)

theorem decodeAckBlocksLoop_error (n : Nat) :
    ∀ (cursor : List Nat) (current : Nat) (acc : List AckBlock)
      (e : QuicError),
      decodeAckBlocksLoop n cursor current acc = .error e → e = ackError := by
  induction n with
  | zero =>
    intro cursor current acc e h
    exact absurd h (by simp [decodeAckBlocksLoop])
  | succ n ih =>
    intro cursor current acc e h
    simp only [decodeAckBlocksLoop] at h
    split at h
    · injection h with h
      exact h.symm
    split at h
    · injection h with h
      exact h.symm
    split at h
    · rename_i e' heq
      injection h with h
      rw [← h]
      exact nextAckedPacketGap_error _ _ _ heq
    split at h
    · rename_i e' heq
      injection h with h
      rw [← h]
      exact nextAckedPacketLen_error _ _ _ heq
    · exact ih _ _ _ _ h

/-- C1: ACK decode reconstructs the block list iteratively — the end of
each additional block is previousBlockStart - (gap + 2), its start is
that end minus blockLen, with underflow failing as FRAME_ENCODING_ERROR
tagged ACK — and the resulting blocks are emitted largest-first with
strict gaps: blocks[i].start > blocks[i+1].end + 1. -/
theorem decodeAckFrame_blocks (bytes : List Nat) (header : PacketHeader)
    (params : CodecParameters) :
    (∀ frame rest, decodeAckFrame bytes header params = .ok (frame, rest) →
      frame.ackBlocks ≠ [] ∧
      (∀ b ∈ frame.ackBlocks, b.startPacket ≤ b.endPacket) ∧
      (∀ i (hi : i + 1 < frame.ackBlocks.length),
        (frame.ackBlocks.get ⟨i + 1, hi⟩).endPacket + 1 <
          (frame.ackBlocks.get ⟨i, Nat.lt_of_succ_lt hi⟩).startPacket)) ∧
    (∀ e, decodeAckFrame bytes header params = .error e →
      e = ⟨.FRAME_ENCODING_ERROR, some .ACK⟩) ∧
    (∀ pn gap, pn < gap + 2 →
      nextAckedPacketGap pn gap =
        .error ⟨.FRAME_ENCODING_ERROR, some .ACK⟩) ∧
    (∀ pn len, pn < len →
      nextAckedPacketLen pn len =
        .error ⟨.FRAME_ENCODING_ERROR, some .ACK⟩) := by
  refine ⟨?_, ?_, ?_, ?_⟩
  · intro frame rest h
    simp only [decodeAckFrame] at h
    generalize (if header.getHeaderForm = HeaderForm.Long then
      kDefaultAckDelayExponent else params.peerAckDelayExponent) =
      expToUse at h
    split at h
    · exact absurd h (by simp)
    split at h
    · exact absurd h (by simp)
    split at h
    · exact absurd h (by simp)
    split at h
    · exact absurd h (by simp)
    split at h
    · exact absurd h (by simp)
    split at h
    · exact absurd h (by simp)
    split at h
    · exact absurd h (by simp)
    split at h
    · exact absurd h (by simp)
    rename_i _eLen current heqCur _eLoop blocks c5 heqLoop
    simp only [Except.ok.injEq, Prod.mk.injEq] at h
    obtain ⟨h1, _h2⟩ := h
    obtain ⟨hle, hev⟩ := nextAckedPacketLen_ok _ _ _ heqCur
    have hloop := decodeAckBlocksLoop_ok _ _ _ _ _ _ heqLoop ?p1 ?p2 ?p3
    case p1 =>
      intro lb hlb
      rw [List.getLast?_singleton] at hlb
      injection hlb with hlb
      rw [← hlb]
    case p2 =>
      intro b hb
      obtain rfl := List.mem_singleton.mp hb
      dsimp only
      omega
    case p3 => exact List.chain'_singleton _
    rw [← h1]
    dsimp only
    refine ⟨?_, hloop.1, ?_⟩
    · intro hnil
      have h12 := hloop.2.2
      rw [hnil] at h12
      simp at h12
    · intro i hi
      exact List.chain'_iff_get.mp hloop.2.1 i (by omega)
  · intro e h
    simp only [decodeAckFrame] at h
    generalize (if header.getHeaderForm = HeaderForm.Long then
      kDefaultAckDelayExponent else params.peerAckDelayExponent) =
      expToUse at h
    split at h
    · injection h with h
      exact h.symm
    split at h
    · injection h with h
      exact h.symm
    split at h
    · injection h with h
      exact h.symm
    split at h
    · injection h with h
      exact h.symm
    split at h
    · injection h with h
      exact h.symm
    split at h
    · injection h with h
      exact h.symm
    split at h
    · rename_i e' heq
      injection h with h
      rw [← h]
      exact nextAckedPacketLen_error _ _ _ heq
    split at h
    · rename_i e' heq
      injection h with h
      rw [← h]
      exact decodeAckBlocksLoop_error _ _ _ _ _ heq
    · exact absurd h (by simp)
  · intro pn gap hlt
    unfold nextAckedPacketGap
    simp only []
    rw [if_pos hlt]
    rfl
  · intro pn len hlt
    unfold nextAckedPacketLen
    rw [if_pos hlt]
    rfl

/-- C1 witness: the theorem instantiated at a concrete two-block ACK
frame (largestAcked 10, ack delay 0, one additional block, first block
length 2, gap 0, block length 1). -/
theorem decodeAckFrame_blocks_witness :
    decodeAckFrame [10, 0, 1, 2, 0, 1]
        (.long ⟨.Handshake, 1, [], [], 0, [], none⟩) ⟨3⟩ =
      .ok (⟨10, 0, [⟨8, 10⟩, ⟨5, 6⟩]⟩, []) ∧
    ([⟨8, 10⟩, ⟨5, 6⟩] : List AckBlock) ≠ [] ∧
    (∀ b ∈ ([⟨8, 10⟩, ⟨5, 6⟩] : List AckBlock),
      b.startPacket ≤ b.endPacket) ∧
    (6 : Nat) + 1 < 8 := by
  have h := (decodeAckFrame_blocks [10, 0, 1, 2, 0, 1]
      (.long ⟨.Handshake, 1, [], [], 0, [], none⟩) ⟨3⟩).1
      ⟨10, 0, [⟨8, 10⟩, ⟨5, 6⟩]⟩ [] (by decide)
  refine ⟨by decide, h.1, h.2.1, ?_⟩
  have hgap := h.2.2 0 (by decide)
  norm_num at hgap ⊢
